import Mathlib

/-!
Verification of the WALLYBOTTY trading bot core: the order executor
(`src/core/executor.py`) together with the strategy position store and
signal evaluation it calls into.  Money amounts are embedded as exact
rationals (ℚ); timestamps are abstract `Nat` ticks passed explicitly.
The live-exchange adapter is modelled as an explicit `Option` argument:
`none` means the adapter call raised.
-/

namespace WallyBotty

/-! ## Configuration constants, from `src/config/settings.py` -/

def DEFAULT_TRADE_AMOUNT_USDT : ℚ := 100

def MAX_TRADE_AMOUNT_USDT : ℚ := 1000

def MIN_TRADE_AMOUNT_USDT : ℚ := 10

def MAX_OPEN_POSITIONS : Nat := 5

def MAX_POSITION_PER_COIN : Nat := 1

/-! ## Signals and the strategy position store

`src/core/strategy.py` is imported by the executor and the web layer but is
absent from the sources; the definitions below reconstruct exactly the part
of its interface the executor and the claims need. -/

/-- Signal kinds: from the spec (`Signal carries signal_type ∈ BUY, SELL, HOLD`);
`core/strategy.py` itself is missing from the sources. -/
inductive SignalType where
  | BUY
  | SELL
  | HOLD
deriving Repr, DecidableEq

/-- Modelled from the spec: `core/strategy.py` is missing; a Signal carries
`signal_type`, `symbol`, `price`, and an ordered list of reason strings. -/
structure TradingSignal where
  signal_type : SignalType
  symbol : String
  price : ℚ
  reasons : List String
deriving Repr, DecidableEq

/-- Modelled from the spec: a Position has `symbol`, `entry_price`, `quantity`,
`opened_at`; owned by the strategy's position store, at most one per symbol. -/
structure Position where
  symbol : String
  entry_price : ℚ
  quantity : ℚ
  opened_at : Nat
deriving Repr, DecidableEq

/-- The open positions for one symbol (helper over the store). -/
def positionsFor (positions : List Position) (symbol : String) : List Position :=
  positions.filter (fun p => p.symbol == symbol)

/-- Modelled from the spec: `can_open_position(symbol)` is true iff the symbol
has no existing open Position, the count of all open Positions is below
`MAX_OPEN_POSITIONS`, and the count of open Positions for that symbol is below
`MAX_POSITION_PER_COIN`. -/
def can_open_position (positions : List Position) (symbol : String) : Bool :=
  (positionsFor positions symbol).isEmpty
    && decide (positions.length < MAX_OPEN_POSITIONS)
    && decide ((positionsFor positions symbol).length < MAX_POSITION_PER_COIN)

/-- Modelled from the spec: `get_position(symbol)` returns the open Position
for the symbol, if any. -/
def get_position (positions : List Position) (symbol : String) : Option Position :=
  positions.find? (fun p => p.symbol == symbol)

/-- Modelled from the spec: `add_position(symbol, price, quantity)` creates and
stores a Position (the executor checks capacity before calling). -/
def add_position (positions : List Position) (symbol : String) (price quantity : ℚ)
    (now : Nat) : List Position :=
  positions ++ [⟨symbol, price, quantity, now⟩]

/-- Modelled from the spec: `close_position(symbol)` removes the Position for
the symbol; no-op if absent. -/
def close_position (positions : List Position) (symbol : String) : List Position :=
  positions.filter (fun p => p.symbol != symbol)

/-- Modelled from the spec: the buy-condition set of the trigger
configuration (RSI ceiling, dip %, volume-spike multiplier, enabled flag). -/
structure BuyTriggers where
  rsi_below : ℚ
  dip_percent : ℚ
  volume_spike : ℚ
  enabled : Bool
deriving Repr, DecidableEq

/-- Modelled from the spec: the sell-condition set of the trigger
configuration (RSI floor, rise %, stop-loss %, take-profit %, enabled flag). -/
structure SellTriggers where
  rsi_above : ℚ
  rise_percent : ℚ
  stop_loss : ℚ
  take_profit : ℚ
  enabled : Bool
deriving Repr, DecidableEq

/-- The default buy triggers of `src/config/settings.py`:
`rsi_below 30, dip_percent 5.0, volume_spike 1.5, enabled`. -/
def DEFAULT_BUY_TRIGGERS : BuyTriggers := ⟨30, 5, 3 / 2, true⟩

/-- The default sell triggers of `src/config/settings.py`:
`rsi_above 70, rise_percent 10.0, stop_loss 5.0, take_profit 15.0, enabled`. -/
def DEFAULT_SELL_TRIGGERS : SellTriggers := ⟨70, 10, 5, 15, true⟩

/-- Modelled from the spec: the indicator snapshot fields that `evaluate`
reads (`price, rsi, dip_percent, volume_spike`). -/
structure IndicatorSnapshot where
  price : ℚ
  rsi : ℚ
  dip_percent : ℚ
  volume_spike : ℚ
deriving Repr, DecidableEq

/-- Modelled from the spec: `StrategyEngine.evaluate(symbol, indicators)`.
Buy evaluation is only attempted if buy triggers are enabled, no open position
exists for the symbol and capacity is available, and fires BUY only if all of
`rsi ≤ rsi_below`, `dip_percent ≥ dip_percent` threshold and
`volume_spike ≥ volume_spike` threshold hold simultaneously.  Sell evaluation
is only attempted if sell triggers are enabled and an open position exists,
and fires SELL if any of the RSI / rise-from-entry / stop-loss / take-profit
conditions holds.  Otherwise HOLD with empty reasons. -/
def evaluate (bt : BuyTriggers) (stg : SellTriggers) (positions : List Position)
    (symbol : String) (ind : IndicatorSnapshot) : TradingSignal :=
  match get_position positions symbol with
  | none =>
    if bt.enabled && can_open_position positions symbol
        && decide (ind.rsi ≤ bt.rsi_below)
        && decide (ind.dip_percent ≥ bt.dip_percent)
        && decide (ind.volume_spike ≥ bt.volume_spike) then
      ⟨SignalType.BUY, symbol, ind.price,
        ["rsi oversold", "dip from high", "volume spike"]⟩
    else
      ⟨SignalType.HOLD, symbol, ind.price, []⟩
  | some pos =>
    let rise := (ind.price - pos.entry_price) / pos.entry_price * 100
    let drawdown := (pos.entry_price - ind.price) / pos.entry_price * 100
    if stg.enabled
        && (decide (ind.rsi ≥ stg.rsi_above)
          || decide (rise ≥ stg.rise_percent)
          || decide (drawdown ≥ stg.stop_loss)
          || decide (rise ≥ stg.take_profit)) then
      ⟨SignalType.SELL, symbol, ind.price, ["sell condition met"]⟩
    else
      ⟨SignalType.HOLD, symbol, ind.price, []⟩

/-! ## Orders, trades and the executor state, from `src/core/executor.py` -/

/-- `OrderStatus` enum from `executor.py`. -/
inductive OrderStatus where
  | pending
  | filled
  | cancelled
  | failed
deriving Repr, DecidableEq

/-- The `Order` dataclass from `executor.py`. -/
structure Order where
  order_id : String
  symbol : String
  side : String
  order_type : String
  quantity : ℚ
  price : ℚ
  status : OrderStatus
  timestamp : Nat
  filled_price : ℚ := 0
  fee : ℚ := 0
  is_paper : Bool := true
deriving Repr, DecidableEq

/-- The `Trade` dataclass from `executor.py`. -/
structure Trade where
  trade_id : String
  symbol : String
  side : String
  quantity : ℚ
  entry_price : ℚ
  exit_price : ℚ := 0
  pnl : ℚ := 0
  pnl_percent : ℚ := 0
  entry_time : Option Nat := none
  exit_time : Option Nat := none
  is_paper : Bool := true
  status : String := "open"
deriving Repr, DecidableEq

/-- The mutable state of `OrderExecutor` (plus the strategy's position store,
which the executor mutates through the strategy singleton).  The Python
`trades` dict is insertion-ordered and keyed by fresh `TRADE-n` ids, so a list
in insertion order is a faithful model; `paper_balance` is its USDT entry. -/
structure ExecutorState where
  paper_mode : Bool
  exchange_ok : Bool
  orders : List Order
  trades : List Trade
  order_counter : Nat
  trade_counter : Nat
  paper_balance : ℚ
  positions : List Position
deriving Repr, DecidableEq

/-- A fresh paper-mode executor with balance `b`, no orders, trades or
positions (the `__init__` state before any signal). -/
def mkPaperState (b : ℚ) : ExecutorState :=
  { paper_mode := true
    exchange_ok := false
    orders := []
    trades := []
    order_counter := 0
    trade_counter := 0
    paper_balance := b
    positions := [] }

/-- The result dict of a successful live-exchange call
(`create_market_buy_order` / `create_market_sell_order`): `id`, `status`, and
the optional `average` and `fee.cost` entries read with `.get`. -/
structure LiveOrderResult where
  id : String
  status : String
  average : Option ℚ
  fee_cost : Option ℚ
deriving Repr, DecidableEq

/-- `OrderExecutor._paper_buy`: reject when the paper balance is below
`cost = quantity * price`, else debit the cost, append a filled order with
`fee = cost * 0.001`, open a trade and add the position. -/
def paper_buy (st : ExecutorState) (symbol : String) (quantity price : ℚ)
    (now : Nat) : Option Order × ExecutorState :=
  let cost := quantity * price
  if st.paper_balance < cost then (none, st)
  else
    let oc := st.order_counter + 1
    let order : Order :=
      { order_id := "PAPER-" ++ toString oc
        symbol := symbol
        side := "buy"
        order_type := "market"
        quantity := quantity
        price := price
        status := OrderStatus.filled
        timestamp := now
        filled_price := price
        fee := cost * (1 / 1000)
        is_paper := true }
    let tc := st.trade_counter + 1
    let trade : Trade :=
      { trade_id := "TRADE-" ++ toString tc
        symbol := symbol
        side := "long"
        quantity := quantity
        entry_price := price
        entry_time := some now
        is_paper := true
        status := "open" }
    (some order,
      { st with
          paper_balance := st.paper_balance - cost
          order_counter := oc
          trade_counter := tc
          orders := st.orders ++ [order]
          trades := st.trades ++ [trade]
          positions := add_position st.positions symbol price quantity now })

/-- `OrderExecutor._live_buy`: reject when the exchange is not initialised or
the adapter call raises (`result? = none`); otherwise record the order with
the adapter's id, status, average fill price and fee, open a trade at the
filled price and add the position. -/
def live_buy (st : ExecutorState) (symbol : String) (quantity price : ℚ)
    (now : Nat) (result? : Option LiveOrderResult) : Option Order × ExecutorState :=
  if !st.exchange_ok then (none, st)
  else
    match result? with
    | none => (none, st)
    | some result =>
      let order : Order :=
        { order_id := result.id
          symbol := symbol
          side := "buy"
          order_type := "market"
          quantity := quantity
          price := price
          status := if result.status == "closed" then OrderStatus.filled
                    else OrderStatus.pending
          timestamp := now
          filled_price := result.average.getD price
          fee := result.fee_cost.getD 0
          is_paper := false }
      let tc := st.trade_counter + 1
      let trade : Trade :=
        { trade_id := "TRADE-" ++ toString tc
          symbol := symbol
          side := "long"
          quantity := quantity
          entry_price := order.filled_price
          entry_time := some now
          is_paper := false
          status := "open" }
      (some order,
        { st with
            trade_counter := tc
            orders := st.orders ++ [order]
            trades := st.trades ++ [trade]
            positions := add_position st.positions symbol order.filled_price quantity now })

/-- `OrderExecutor._execute_buy`: reject on `price ≤ 0`, compute
`quantity = amount / price`, reject when `can_open_position` fails, then
dispatch to the paper or live branch. -/
def execute_buy (st : ExecutorState) (sig : TradingSignal) (amount_usdt : ℚ)
    (now : Nat) (result? : Option LiveOrderResult) : Option Order × ExecutorState :=
  if sig.price ≤ 0 then (none, st)
  else
    let quantity := amount_usdt / sig.price
    if ¬ can_open_position st.positions sig.symbol then (none, st)
    else if st.paper_mode then paper_buy st sig.symbol quantity sig.price now
    else live_buy st sig.symbol quantity sig.price now result?

/-- Close the first open trade for `symbol` in insertion order (the loop over
`self.trades.values()` in `_paper_sell` / `_live_sell` that breaks after the
first match), writing exit price/time, pnl, pnl percent and closed status. -/
def closeFirstOpenTrade (trades : List Trade) (symbol : String)
    (price pnl pnl_percent : ℚ) (now : Nat) : List Trade :=
  match trades with
  | [] => []
  | t :: ts =>
    if t.symbol == symbol && t.status == "open" then
      { t with
          exit_price := price
          exit_time := some now
          pnl := pnl
          pnl_percent := pnl_percent
          status := "closed" } :: ts
    else t :: closeFirstOpenTrade ts symbol price pnl pnl_percent now

/-- `OrderExecutor._paper_sell`: credit the proceeds, append a filled sell
order with `fee = proceeds * 0.001`, close the first open trade for the
symbol with `pnl = proceeds - cost` and `pnl_percent = pnl / cost * 100`, and
remove the position. -/
def paper_sell (st : ExecutorState) (symbol : String)
    (quantity price entry_price : ℚ) (now : Nat) : Option Order × ExecutorState :=
  let proceeds := quantity * price
  let cost := quantity * entry_price
  let pnl := proceeds - cost
  let pnl_percent := pnl / cost * 100
  let oc := st.order_counter + 1
  let order : Order :=
    { order_id := "PAPER-" ++ toString oc
      symbol := symbol
      side := "sell"
      order_type := "market"
      quantity := quantity
      price := price
      status := OrderStatus.filled
      timestamp := now
      filled_price := price
      fee := proceeds * (1 / 1000)
      is_paper := true }
  (some order,
    { st with
        paper_balance := st.paper_balance + proceeds
        order_counter := oc
        orders := st.orders ++ [order]
        trades := closeFirstOpenTrade st.trades symbol price pnl pnl_percent now
        positions := close_position st.positions symbol })

/-- `OrderExecutor._live_sell`: reject when the exchange is not initialised or
the adapter call raises; otherwise recompute pnl at the adapter's average
fill price, record the order, close the first open trade and remove the
position. -/
def live_sell (st : ExecutorState) (symbol : String)
    (quantity price entry_price : ℚ) (now : Nat)
    (result? : Option LiveOrderResult) : Option Order × ExecutorState :=
  if !st.exchange_ok then (none, st)
  else
    match result? with
    | none => (none, st)
    | some result =>
      let filled_price := result.average.getD price
      let proceeds := quantity * filled_price
      let cost := quantity * entry_price
      let pnl := proceeds - cost
      let pnl_percent := pnl / cost * 100
      let order : Order :=
        { order_id := result.id
          symbol := symbol
          side := "sell"
          order_type := "market"
          quantity := quantity
          price := price
          status := if result.status == "closed" then OrderStatus.filled
                    else OrderStatus.pending
          timestamp := now
          filled_price := filled_price
          fee := result.fee_cost.getD 0
          is_paper := false }
      (some order,
        { st with
            orders := st.orders ++ [order]
            trades := closeFirstOpenTrade st.trades symbol filled_price pnl pnl_percent now
            positions := close_position st.positions symbol })

/-- `OrderExecutor._execute_sell`: reject when no position exists for the
symbol, then dispatch to the paper or live branch with the position's
quantity and entry price. -/
def execute_sell (st : ExecutorState) (sig : TradingSignal) (now : Nat)
    (result? : Option LiveOrderResult) : Option Order × ExecutorState :=
  match get_position st.positions sig.symbol with
  | none => (none, st)
  | some pos =>
    if st.paper_mode then
      paper_sell st sig.symbol pos.quantity sig.price pos.entry_price now
    else
      live_sell st sig.symbol pos.quantity sig.price pos.entry_price now result?

/-- `amount_usdt = amount_usdt or settings.DEFAULT_TRADE_AMOUNT_USDT`:
Python `or` replaces both `None` and the falsy `0.0` by the default. -/
def resolveAmount (amount? : Option ℚ) : ℚ :=
  match amount? with
  | none => DEFAULT_TRADE_AMOUNT_USDT
  | some a => if a = 0 then DEFAULT_TRADE_AMOUNT_USDT else a

/-- `OrderExecutor.execute_signal`: HOLD returns nothing; the amount defaults
as in `resolveAmount`, is rejected below the minimum and clamped above the
maximum; then the buy or sell path runs. -/
def execute_signal (st : ExecutorState) (sig : TradingSignal) (amount? : Option ℚ)
    (now : Nat) (result? : Option LiveOrderResult) : Option Order × ExecutorState :=
  if sig.signal_type = SignalType.HOLD then (none, st)
  else
    let amount := resolveAmount amount?
    if amount < MIN_TRADE_AMOUNT_USDT then (none, st)
    else
      let amount := if amount > MAX_TRADE_AMOUNT_USDT then MAX_TRADE_AMOUNT_USDT
                    else amount
      match sig.signal_type with
      | SignalType.BUY => execute_buy st sig amount now result?
      | SignalType.SELL => execute_sell st sig now result?
      | SignalType.HOLD => (none, st)

/-! ## Ledger persistence, from `_load_trade_history` -/

/-- The persisted ledger file: `trades` and `orders` arrays and the
`paper_balance` mapping (its USDT entry; `none` models an absent key, for
which `data.get` substitutes the 10000 default). -/
structure LedgerFile where
  trades : List Trade
  orders : List Order
  paper_balance : Option ℚ
deriving Repr, DecidableEq

/-- `OrderExecutor._load_trade_history`: when the file exists and parses,
restore only `paper_balance`; the trades and orders arrays are never read
back (`# Could restore trades here if needed`). -/
def load_trade_history (st : ExecutorState) (file? : Option LedgerFile) : ExecutorState :=
  match file? with
  | none => st
  | some d => { st with paper_balance := d.paper_balance.getD 10000 }

/-- `OrderExecutor.__init__`: empty order/trade collections, zero counters,
paper balance 10000, then `_load_trade_history`. -/
def initExecutor (paper_mode exchange_ok : Bool) (file? : Option LedgerFile) :
    ExecutorState :=
  load_trade_history
    { paper_mode := paper_mode
      exchange_ok := exchange_ok
      orders := []
      trades := []
      order_counter := 0
      trade_counter := 0
      paper_balance := 10000
      positions := [] }
    file?

/-! ## Concrete scenario states -/

/-- The buy order produced in the concrete 10000-balance scenario. -/
def buyOrderX : Order :=
  { order_id := "PAPER-1", symbol := "X", side := "buy", order_type := "market",
    quantity := 10, price := 10, status := OrderStatus.filled, timestamp := 0,
    filled_price := 10, fee := 1 / 10, is_paper := true }

/-- The open trade produced in the concrete 10000-balance scenario. -/
def openTradeX : Trade :=
  { trade_id := "TRADE-1", symbol := "X", side := "long", quantity := 10,
    entry_price := 10, exit_price := 0, pnl := 0, pnl_percent := 0,
    entry_time := some 0, exit_time := none, is_paper := true, status := "open" }

/-- Executor state after buying 100 USDT of "X" at price 10 from a fresh
10000-balance paper state: balance 9900, one open trade, one position. -/
def stateAfterBuyX : ExecutorState :=
  { paper_mode := true, exchange_ok := false,
    orders := [buyOrderX], trades := [openTradeX],
    order_counter := 1, trade_counter := 1, paper_balance := 9900,
    positions := [⟨"X", 10, 10, 0⟩] }

/-- The sell order produced when the `stateAfterBuyX` position is sold
at price 11: proceeds 110, fee 0.11. -/
def sellOrderX : Order :=
  { order_id := "PAPER-2", symbol := "X", side := "sell", order_type := "market",
    quantity := 10, price := 11, status := OrderStatus.filled, timestamp := 1,
    filled_price := 11, fee := 11 / 100, is_paper := true }

/-- The closed trade after selling at 11: pnl 10, pnl_percent 10. -/
def closedTradeX : Trade :=
  { trade_id := "TRADE-1", symbol := "X", side := "long", quantity := 10,
    entry_price := 10, exit_price := 11, pnl := 10, pnl_percent := 10,
    entry_time := some 0, exit_time := some 1, is_paper := true, status := "closed" }

/-- Executor state after the sell at 11: balance 10010, trade closed,
position removed. -/
def stateAfterSellX : ExecutorState :=
  { paper_mode := true, exchange_ok := false,
    orders := [buyOrderX, sellOrderX], trades := [closedTradeX],
    order_counter := 2, trade_counter := 1, paper_balance := 10010,
    positions := [] }

/-- A buy of `amount := a` at price `p` from a fresh paper state with balance
`b`, followed by a sell of the resulting position at the same price `p`. -/
def roundTrip (symbol : String) (p a b : ℚ) (t1 t2 : Nat) : Option Order × ExecutorState :=
  execute_signal
    (execute_signal (mkPaperState b) ⟨SignalType.BUY, symbol, p, []⟩ (some a) t1 none).2
    ⟨SignalType.SELL, symbol, p, []⟩ (some a) t2 none

/-! ## Helper lemmas -/

/-- A live buy whose adapter call raised leaves the state untouched. -/
theorem live_buy_none (st : ExecutorState) (symbol : String) (q p : ℚ) (now : Nat) :
    live_buy st symbol q p now none = (none, st) := by
  unfold live_buy
  split <;> rfl

/-- A live sell whose adapter call raised leaves the state untouched. -/
theorem live_sell_none (st : ExecutorState) (symbol : String) (q p e : ℚ) (now : Nat) :
    live_sell st symbol q p e now none = (none, st) := by
  unfold live_sell
  split <;> rfl

/-- The buy path rejects, returning the state untouched, on a non-positive
price, a failed capacity check, or (in paper mode) an insufficient balance. -/
theorem execute_buy_rejects (st : ExecutorState) (sig : TradingSignal) (amount : ℚ)
    (now : Nat) (res? : Option LiveOrderResult)
    (h : sig.price ≤ 0 ∨ can_open_position st.positions sig.symbol = false ∨
      (st.paper_mode = true ∧ st.paper_balance < amount / sig.price * sig.price)) :
    execute_buy st sig amount now res? = (none, st) := by
  unfold execute_buy paper_buy
  rcases h with hp | hco | ⟨hpm, hbal⟩
  · rw [if_pos hp]
  · by_cases hp : sig.price ≤ 0
    · rw [if_pos hp]
    · rw [if_neg hp, if_pos (by simp [hco])]
  · by_cases hp : sig.price ≤ 0
    · rw [if_pos hp]
    · by_cases hco : can_open_position st.positions sig.symbol = true
      · rw [if_neg hp, if_neg (by simp [hco]), if_pos hpm, if_pos hbal]
      · rw [if_neg hp, if_pos (by simpa using hco)]

/-- Closing the first open trade for a symbol: when no earlier trade in the
list is open for the symbol and `t` is, exactly `t` is rewritten. -/
theorem closeFirstOpenTrade_append (pre : List Trade) (t : Trade) (post : List Trade)
    (symbol : String) (price pnl pp : ℚ) (now : Nat)
    (hpre : ∀ u ∈ pre, ¬(u.symbol = symbol ∧ u.status = "open"))
    (ht1 : t.symbol = symbol) (ht2 : t.status = "open") :
    closeFirstOpenTrade (pre ++ t :: post) symbol price pnl pp now =
      pre ++
        { t with exit_price := price,
                 exit_time := some now,
                 pnl := pnl,
                 pnl_percent := pp,
                 status := "closed" } :: post := by
  induction pre with
  | nil =>
    simp [closeFirstOpenTrade, ht1, ht2]
  | cons u us ih =>
    have hu := hpre u (by simp)
    have hcond : ¬ (u.symbol == symbol && u.status == "open") = true := by
      simp only [Bool.and_eq_true, beq_iff_eq]
      exact fun hh => hu hh
    simp only [List.cons_append, closeFirstOpenTrade, if_neg hcond, List.append_eq]
    rw [ih (fun v hv => hpre v (by simp [hv]))]

/-- After `close_position`, no position is found for the closed symbol. -/
theorem get_position_close_position (ps : List Position) (s : String) :
    get_position (close_position ps s) s = none := by
  rw [get_position, List.find?_eq_none]
  intro x hx
  rw [close_position] at hx
  have hc := (List.mem_filter.mp hx).2
  simp only [bne_iff_ne, ne_eq] at hc
  simp [hc]

/-- `close_position` keeps every position of a different symbol. -/
theorem mem_close_position (p : Position) (ps : List Position) (s : String)
    (hp : p ∈ ps) (hne : p.symbol ≠ s) : p ∈ close_position ps s := by
  refine List.mem_filter.mpr ⟨hp, ?_⟩
  simp [hne]

/-! ## Claim theorems -/

/-- C3: in paper mode, starting from balance 10000 with no open position for
"X", a BUY signal at price 10 with amount 100 yields balance exactly 9900,
exactly one open Trade with entry_price 10 and quantity 10, and a filled
Order with fee 0.1 (`buyOrderX` and `stateAfterBuyX` spell these out). -/
theorem C3_paper_buy_concrete :
    execute_signal (mkPaperState 10000) ⟨SignalType.BUY, "X", 10, []⟩ (some 100) 0 none =
      (some buyOrderX, stateAfterBuyX) := by
  norm_num [execute_signal, execute_buy, paper_buy, resolveAmount, mkPaperState,
    can_open_position, positionsFor, add_position, buyOrderX, openTradeX,
    stateAfterBuyX, MIN_TRADE_AMOUNT_USDT, MAX_TRADE_AMOUNT_USDT,
    MAX_OPEN_POSITIONS, MAX_POSITION_PER_COIN, DEFAULT_TRADE_AMOUNT_USDT]
  rfl

/-- C4: in paper mode, with balance 9900 and an open position of quantity 10
at entry price 10 for "X", a SELL signal at price 11 yields proceeds 110,
order fee 0.11, trade pnl 10 and pnl_percent 10, balance exactly 10010, and
the trade closed (`sellOrderX`, `closedTradeX` and `stateAfterSellX` spell
these out). -/
theorem C4_paper_sell_concrete :
    execute_signal stateAfterBuyX ⟨SignalType.SELL, "X", 11, []⟩ none 1 none =
      (some sellOrderX, stateAfterSellX) := by
  norm_num [execute_signal, execute_sell, paper_sell, resolveAmount,
    stateAfterBuyX, get_position, close_position, closeFirstOpenTrade,
    buyOrderX, openTradeX, sellOrderX, closedTradeX, stateAfterSellX,
    MIN_TRADE_AMOUNT_USDT, MAX_TRADE_AMOUNT_USDT, DEFAULT_TRADE_AMOUNT_USDT,
    List.find?]
  rfl

/-- C9: on construction, when the ledger file exists and parses, loading
restores only the `paper_balance` field; the orders list and trades map stay
empty and both counters stay 0, whatever trades and orders the file holds. -/
theorem C9_load_restores_only_balance (pm ex : Bool) (f : LedgerFile) :
    (initExecutor pm ex (some f)).orders = [] ∧
    (initExecutor pm ex (some f)).trades = [] ∧
    (initExecutor pm ex (some f)).order_counter = 0 ∧
    (initExecutor pm ex (some f)).trade_counter = 0 ∧
    (initExecutor pm ex (some f)).paper_balance = f.paper_balance.getD 10000 := by
  simp [initExecutor, load_trade_history]

/-- C10: a non-HOLD signal with requested amount `none` or exactly 0 is never
rejected as below the minimum: the amount is replaced by
`DEFAULT_TRADE_AMOUNT_USDT`, which is within bounds, and execution proceeds
exactly as it would with the default amount requested explicitly. -/
theorem C10_zero_amount_defaults (st : ExecutorState) (sig : TradingSignal)
    (now : Nat) (res? : Option LiveOrderResult) :
    execute_signal st sig none now res? =
        execute_signal st sig (some DEFAULT_TRADE_AMOUNT_USDT) now res? ∧
    execute_signal st sig (some 0) now res? =
        execute_signal st sig (some DEFAULT_TRADE_AMOUNT_USDT) now res? ∧
    MIN_TRADE_AMOUNT_USDT ≤ DEFAULT_TRADE_AMOUNT_USDT ∧
    DEFAULT_TRADE_AMOUNT_USDT ≤ MAX_TRADE_AMOUNT_USDT := by
  refine ⟨?_, ?_, by norm_num [MIN_TRADE_AMOUNT_USDT, DEFAULT_TRADE_AMOUNT_USDT],
    by norm_num [MAX_TRADE_AMOUNT_USDT, DEFAULT_TRADE_AMOUNT_USDT]⟩ <;>
    norm_num [execute_signal, resolveAmount, DEFAULT_TRADE_AMOUNT_USDT]

/-- The full effect of a round trip at one price from a fresh paper state:
with a positive price, an amount within bounds and a sufficient balance, the
final state has the original balance, one closed trade with zero pnl, two
filled orders each carrying a recorded fee of `a * 0.001`, and no position. -/
theorem roundTrip_eq (symbol : String) (p a b : ℚ) (t1 t2 : Nat)
    (hp : 0 < p) (hmin : MIN_TRADE_AMOUNT_USDT ≤ a) (hmax : a ≤ MAX_TRADE_AMOUNT_USDT)
    (hb : a ≤ b) :
    roundTrip symbol p a b t1 t2 =
      (some
        { order_id := "PAPER-2", symbol := symbol, side := "sell",
          order_type := "market", quantity := a / p, price := p,
          status := OrderStatus.filled, timestamp := t2, filled_price := p,
          fee := a * (1 / 1000), is_paper := true },
       { paper_mode := true, exchange_ok := false,
         orders :=
           [{ order_id := "PAPER-1", symbol := symbol, side := "buy",
              order_type := "market", quantity := a / p, price := p,
              status := OrderStatus.filled, timestamp := t1, filled_price := p,
              fee := a * (1 / 1000), is_paper := true },
            { order_id := "PAPER-2", symbol := symbol, side := "sell",
              order_type := "market", quantity := a / p, price := p,
              status := OrderStatus.filled, timestamp := t2, filled_price := p,
              fee := a * (1 / 1000), is_paper := true }],
         trades :=
           [{ trade_id := "TRADE-1", symbol := symbol, side := "long",
              quantity := a / p, entry_price := p, exit_price := p,
              pnl := 0, pnl_percent := 0, entry_time := some t1,
              exit_time := some t2, is_paper := true, status := "closed" }],
         order_counter := 2, trade_counter := 1, paper_balance := b,
         positions := [] }) := by
  have hp' : p ≠ 0 := ne_of_gt hp
  have hpneg : ¬ p ≤ 0 := not_le.mpr hp
  have ha0 : a ≠ 0 := by
    intro h0
    rw [h0] at hmin
    norm_num [MIN_TRADE_AMOUNT_USDT] at hmin
  have hcost : a / p * p = a := div_mul_cancel₀ a hp'
  have h1 : ¬ a < MIN_TRADE_AMOUNT_USDT := not_lt.mpr hmin
  have h2 : ¬ a > MAX_TRADE_AMOUNT_USDT := not_lt.mpr hmax
  have h3 : ¬ b < a / p * p := by
    rw [hcost]
    exact not_lt.mpr hb
  have h4 : b - a + a = b := by ring
  have hbuy : execute_signal (mkPaperState b) ⟨SignalType.BUY, symbol, p, []⟩
      (some a) t1 none =
      (some
        { order_id := "PAPER-1", symbol := symbol, side := "buy",
          order_type := "market", quantity := a / p, price := p,
          status := OrderStatus.filled, timestamp := t1, filled_price := p,
          fee := a * (1 / 1000), is_paper := true },
       { paper_mode := true, exchange_ok := false,
         orders :=
           [{ order_id := "PAPER-1", symbol := symbol, side := "buy",
              order_type := "market", quantity := a / p, price := p,
              status := OrderStatus.filled, timestamp := t1, filled_price := p,
              fee := a * (1 / 1000), is_paper := true }],
         trades :=
           [{ trade_id := "TRADE-1", symbol := symbol, side := "long",
              quantity := a / p, entry_price := p, exit_price := 0,
              pnl := 0, pnl_percent := 0, entry_time := some t1,
              exit_time := none, is_paper := true, status := "open" }],
         order_counter := 1, trade_counter := 1, paper_balance := b - a,
         positions := [{ symbol := symbol, entry_price := p, quantity := a / p,
                         opened_at := t1 }] }) := by
    have h3' : ¬ b < a := not_lt.mpr hb
    simp only [execute_signal, execute_buy, paper_buy, resolveAmount, mkPaperState,
      can_open_position, positionsFor, add_position,
      MAX_OPEN_POSITIONS, MAX_POSITION_PER_COIN,
      if_neg ha0, if_neg h1, if_neg h2, if_neg hpneg, hcost, if_neg h3']
    norm_num
    rfl
  rw [roundTrip, hbuy]
  simp only [execute_signal, execute_sell, paper_sell, resolveAmount,
    get_position, close_position, closeFirstOpenTrade, List.find?, List.filter,
    if_neg ha0, if_neg h1, if_neg h2, hcost, h4]
  norm_num [h4, hcost]
  rfl

/-- C1 counterexample: at symbol "X", price 10, amount 100, starting balance
10000, the paper round trip at one price leaves the balance at exactly 10000
and the closed trade's pnl at exactly 0, while the two recorded 0.1% fees are
0.1 each; since 10000 ≠ 10000 − 0.2 and 0 ≠ 0 − 0.2, the balance is not the
pre-buy value minus the fees and the pnl is not 0 minus the fees, contrary to
the claim. -/
theorem C1_round_trip_counterexample :
    (roundTrip "X" 10 100 10000 0 1).2.paper_balance = 10000 ∧
    (roundTrip "X" 10 100 10000 0 1).2.trades.map Trade.pnl = [0] ∧
    (roundTrip "X" 10 100 10000 0 1).2.orders.map Order.fee = [1 / 10, 1 / 10] ∧
    (10000 : ℚ) ≠ 10000 - (1 / 10 + 1 / 10) ∧
    (0 : ℚ) ≠ 0 - (1 / 10 + 1 / 10) := by
  have h := roundTrip_eq "X" 10 100 10000 0 1 (by norm_num)
    (by norm_num [MIN_TRADE_AMOUNT_USDT]) (by norm_num [MAX_TRADE_AMOUNT_USDT])
    (by norm_num)
  rw [h]
  norm_num

/-- C1 (amended): for every symbol, price p > 0 and amount within bounds
covered by the balance, buying at p and then selling at the same p in paper
mode yields one closed trade with pnl exactly 0 and restores the paper USDT
balance exactly to its pre-buy value; the two 0.1% simulated fees (cost×0.001
on the buy, proceeds×0.001 on the sell) are recorded on the two orders but
are never debited from the balance nor subtracted from the pnl. -/
theorem C1_round_trip_exact (symbol : String) (p a b : ℚ) (t1 t2 : Nat)
    (hp : 0 < p) (hmin : MIN_TRADE_AMOUNT_USDT ≤ a)
    (hmax : a ≤ MAX_TRADE_AMOUNT_USDT) (hb : a ≤ b) :
    (roundTrip symbol p a b t1 t2).2.paper_balance = b ∧
    (roundTrip symbol p a b t1 t2).2.trades.map Trade.status = ["closed"] ∧
    (roundTrip symbol p a b t1 t2).2.trades.map Trade.pnl = [0] ∧
    (roundTrip symbol p a b t1 t2).2.orders.map Order.fee =
      [a * (1 / 1000), a * (1 / 1000)] := by
  rw [roundTrip_eq symbol p a b t1 t2 hp hmin hmax hb]
  simp

/-- C1 witness: the amended round-trip theorem applied at symbol "X",
price 10, amount 100, balance 10000. -/
theorem C1_round_trip_exact_witness :
    (0 : ℚ) < 10 ∧ MIN_TRADE_AMOUNT_USDT ≤ (100 : ℚ) ∧
    (100 : ℚ) ≤ MAX_TRADE_AMOUNT_USDT ∧ (100 : ℚ) ≤ 10000 ∧
    ((roundTrip "X" 10 100 10000 0 1).2.paper_balance = 10000 ∧
     (roundTrip "X" 10 100 10000 0 1).2.trades.map Trade.status = ["closed"] ∧
     (roundTrip "X" 10 100 10000 0 1).2.trades.map Trade.pnl = [0] ∧
     (roundTrip "X" 10 100 10000 0 1).2.orders.map Order.fee =
       [100 * (1 / 1000), 100 * (1 / 1000)]) :=
  ⟨by norm_num, by norm_num [MIN_TRADE_AMOUNT_USDT],
   by norm_num [MAX_TRADE_AMOUNT_USDT], by norm_num,
   C1_round_trip_exact "X" 10 100 10000 0 1 (by norm_num)
     (by norm_num [MIN_TRADE_AMOUNT_USDT]) (by norm_num [MAX_TRADE_AMOUNT_USDT])
     (by norm_num)⟩

/-- C2: `evaluate` emits a BUY signal iff buy triggers are enabled, no
position is open for the symbol, capacity is available, and all three of
`rsi ≤ rsi_below`, `dip_percent ≥` threshold and `volume_spike ≥` threshold
hold simultaneously; in particular a snapshot meeting only two of the three
conditions (rsi 25 ≤ 30, dip 6 ≥ 5, volume 1 < 1.5) yields HOLD. -/
theorem C2_buy_signal_iff (bt : BuyTriggers) (stg : SellTriggers)
    (positions : List Position) (symbol : String) (ind : IndicatorSnapshot) :
    ((evaluate bt stg positions symbol ind).signal_type = SignalType.BUY ↔
      (bt.enabled = true ∧ get_position positions symbol = none ∧
       can_open_position positions symbol = true ∧
       ind.rsi ≤ bt.rsi_below ∧ ind.dip_percent ≥ bt.dip_percent ∧
       ind.volume_spike ≥ bt.volume_spike)) ∧
    evaluate DEFAULT_BUY_TRIGGERS DEFAULT_SELL_TRIGGERS [] "X" ⟨100, 25, 6, 1⟩ =
      ⟨SignalType.HOLD, "X", 100, []⟩ := by
  constructor
  · cases hgp : get_position positions symbol with
    | none =>
      simp only [evaluate, hgp]
      split
      · rename_i hcond
        simp only [Bool.and_eq_true, decide_eq_true_eq] at hcond
        simp [hgp, hcond.1.1.1.1, hcond.1.1.1.2, hcond.1.1.2, hcond.1.2, hcond.2]
      · rename_i hcond
        constructor
        · intro hh
          exact absurd hh (by simp)
        · rintro ⟨h1, -, h3, h4, h5, h6⟩
          refine absurd ?_ hcond
          simp only [Bool.and_eq_true, decide_eq_true_eq]
          exact ⟨⟨⟨⟨h1, h3⟩, h4⟩, h5⟩, h6⟩
    | some pos =>
      simp only [evaluate, hgp]
      constructor
      · intro hh
        split at hh <;> simp at hh
      · rintro ⟨-, h2, -⟩
        simp at h2
  · norm_num [evaluate, get_position, can_open_position, positionsFor,
      DEFAULT_BUY_TRIGGERS, DEFAULT_SELL_TRIGGERS]

/-- C5: for every SELL signal, if no open position exists for its symbol the
executor returns nothing and changes no state; otherwise, in paper mode, it
credits the balance by `proceeds = quantity * price`, closes the first open
trade for the symbol (writing exit price, exit time, `pnl = proceeds − cost`,
`pnl_percent = pnl / cost * 100` and closed status), appends a filled sell
order with `fee = proceeds × 0.001`, and removes the position. -/
theorem C5_sell_execution (st : ExecutorState) (sig : TradingSignal) (now : Nat)
    (res? : Option LiveOrderResult) (hsig : sig.signal_type = SignalType.SELL) :
    (get_position st.positions sig.symbol = none →
      execute_signal st sig none now res? = (none, st)) ∧
    (∀ pos pre t post, get_position st.positions sig.symbol = some pos →
      st.paper_mode = true →
      st.trades = pre ++ t :: post →
      (∀ u ∈ pre, ¬(u.symbol = sig.symbol ∧ u.status = "open")) →
      t.symbol = sig.symbol → t.status = "open" →
      (execute_signal st sig none now res?).2.paper_balance =
          st.paper_balance + pos.quantity * sig.price ∧
      (execute_signal st sig none now res?).2.trades =
          pre ++
            { t with exit_price := sig.price,
                     exit_time := some now,
                     pnl := pos.quantity * sig.price - pos.quantity * pos.entry_price,
                     pnl_percent := (pos.quantity * sig.price -
                       pos.quantity * pos.entry_price) /
                       (pos.quantity * pos.entry_price) * 100,
                     status := "closed" } :: post ∧
      (∃ o, (execute_signal st sig none now res?).1 = some o ∧
        o.side = "sell" ∧ o.status = OrderStatus.filled ∧
        o.quantity = pos.quantity ∧ o.price = sig.price ∧
        o.fee = pos.quantity * sig.price * (1 / 1000) ∧
        (execute_signal st sig none now res?).2.orders = st.orders ++ [o]) ∧
      get_position (execute_signal st sig none now res?).2.positions sig.symbol = none ∧
      (∀ p ∈ st.positions, p.symbol ≠ sig.symbol →
        p ∈ (execute_signal st sig none now res?).2.positions)) := by
  have hred : execute_signal st sig none now res? = execute_sell st sig now res? := by
    unfold execute_signal
    rw [hsig]
    norm_num [resolveAmount, DEFAULT_TRADE_AMOUNT_USDT, MIN_TRADE_AMOUNT_USDT,
      MAX_TRADE_AMOUNT_USDT]
    intro hh
    exact absurd hh (by simp)
  constructor
  · intro hgp
    rw [hred]
    simp [execute_sell, hgp]
  · intro pos pre t post hgp hpm htr hpre ht1 ht2
    rw [hred]
    simp only [execute_sell, hgp, hpm, if_true]
    unfold paper_sell
    refine ⟨rfl, ?_, ⟨_, rfl, rfl, rfl, rfl, rfl, rfl, rfl⟩, ?_, ?_⟩
    · rw [htr]
      exact closeFirstOpenTrade_append pre t post sig.symbol sig.price _ _ now hpre ht1 ht2
    · exact get_position_close_position st.positions sig.symbol
    · intro p hp hne
      exact mem_close_position p st.positions sig.symbol hp hne

/-- C5 witness: the sell theorem applied at a no-position state (rejection
branch) and at `stateAfterBuyX` (paper execution branch, balance credit). -/
theorem C5_sell_execution_witness :
    (⟨SignalType.SELL, "X", 11, []⟩ : TradingSignal).signal_type = SignalType.SELL ∧
    get_position (mkPaperState 500).positions "X" = none ∧
    execute_signal (mkPaperState 500) ⟨SignalType.SELL, "X", 11, []⟩ none 0 none =
      (none, mkPaperState 500) ∧
    (execute_signal stateAfterBuyX ⟨SignalType.SELL, "X", 11, []⟩ none 1 none).2.paper_balance =
      stateAfterBuyX.paper_balance +
        (⟨"X", 10, 10, 0⟩ : Position).quantity *
          (⟨SignalType.SELL, "X", 11, []⟩ : TradingSignal).price :=
  ⟨rfl, rfl,
   (C5_sell_execution (mkPaperState 500) ⟨SignalType.SELL, "X", 11, []⟩ 0 none rfl).1 rfl,
   ((C5_sell_execution stateAfterBuyX ⟨SignalType.SELL, "X", 11, []⟩ 1 none rfl).2
      ⟨"X", 10, 10, 0⟩ [] openTradeX [] rfl rfl rfl
      (by simp) rfl rfl).1⟩

/-- C6: in paper mode, a BUY signal with an in-bounds amount is rejected
atomically when the price is non-positive, the capacity check fails, or the
balance is below `cost = (amount / price) * price`: the executor returns
nothing and the whole state (orders, trades, balance, positions) is exactly
the input state. -/
theorem C6_buy_rejection_atomic (st : ExecutorState) (sig : TradingSignal) (a : ℚ)
    (now : Nat) (res? : Option LiveOrderResult)
    (hsig : sig.signal_type = SignalType.BUY) (hpm : st.paper_mode = true)
    (hmin : MIN_TRADE_AMOUNT_USDT ≤ a) (hmax : a ≤ MAX_TRADE_AMOUNT_USDT)
    (hrej : sig.price ≤ 0 ∨ can_open_position st.positions sig.symbol = false ∨
      st.paper_balance < a / sig.price * sig.price) :
    execute_signal st sig (some a) now res? = (none, st) := by
  have ha0 : a ≠ 0 := by
    intro h0
    rw [h0] at hmin
    norm_num [MIN_TRADE_AMOUNT_USDT] at hmin
  have hnotlt : ¬ a < MIN_TRADE_AMOUNT_USDT := not_lt.mpr hmin
  have hnotgt : ¬ a > MAX_TRADE_AMOUNT_USDT := not_lt.mpr hmax
  unfold execute_signal
  rw [if_neg (by rw [hsig]; exact fun hh => by cases hh)]
  simp only [resolveAmount, if_neg ha0, if_neg hnotlt, if_neg hnotgt]
  rw [hsig]
  show execute_buy st sig a now res? = (none, st)
  exact execute_buy_rejects st sig a now res?
    (hrej.imp id (Or.imp id fun hb => ⟨hpm, hb⟩))

/-- C6 witness: the insufficient-balance scenario of the spec — paper balance
5, buy costing 100 at price 10: no order and the state is unchanged. -/
theorem C6_buy_rejection_atomic_witness :
    (⟨SignalType.BUY, "X", 10, []⟩ : TradingSignal).signal_type = SignalType.BUY ∧
    (mkPaperState 5).paper_mode = true ∧
    MIN_TRADE_AMOUNT_USDT ≤ (100 : ℚ) ∧ (100 : ℚ) ≤ MAX_TRADE_AMOUNT_USDT ∧
    (mkPaperState 5).paper_balance < (100 : ℚ) / 10 * 10 ∧
    execute_signal (mkPaperState 5) ⟨SignalType.BUY, "X", 10, []⟩ (some 100) 0 none =
      (none, mkPaperState 5) :=
  ⟨rfl, rfl, by norm_num [MIN_TRADE_AMOUNT_USDT],
   by norm_num [MAX_TRADE_AMOUNT_USDT], by norm_num [mkPaperState],
   C6_buy_rejection_atomic (mkPaperState 5) ⟨SignalType.BUY, "X", 10, []⟩ 100 0 none
     rfl rfl (by norm_num [MIN_TRADE_AMOUNT_USDT]) (by norm_num [MAX_TRADE_AMOUNT_USDT])
     (Or.inr (Or.inr (by norm_num [mkPaperState])))⟩

/-- C7 counterexample: a requested amount of exactly 0 is strictly below the
minimum of 10, yet the executor does not reject it — it produces a filled
order and debits the balance from 10000 to 9900 (the 0 is replaced by the
100 default), contradicting the claim that every amount strictly below the
minimum yields no order and an unchanged balance. -/
theorem C7_zero_amount_counterexample :
    (0 : ℚ) < MIN_TRADE_AMOUNT_USDT ∧
    (execute_signal (mkPaperState 10000) ⟨SignalType.BUY, "X", 10, []⟩ (some 0) 0 none).1 =
      some buyOrderX ∧
    (execute_signal (mkPaperState 10000) ⟨SignalType.BUY, "X", 10, []⟩ (some 0) 0 none).2.paper_balance =
      9900 ∧
    (9900 : ℚ) ≠ (mkPaperState 10000).paper_balance := by
  have hrun :
      execute_signal (mkPaperState 10000) ⟨SignalType.BUY, "X", 10, []⟩ (some 0) 0 none =
        (some buyOrderX, stateAfterBuyX) := by
    norm_num [execute_signal, execute_buy, paper_buy, resolveAmount, mkPaperState,
      can_open_position, positionsFor, add_position, buyOrderX, openTradeX,
      stateAfterBuyX, MIN_TRADE_AMOUNT_USDT, MAX_TRADE_AMOUNT_USDT,
      MAX_OPEN_POSITIONS, MAX_POSITION_PER_COIN, DEFAULT_TRADE_AMOUNT_USDT]
    rfl
  rw [hrun]
  refine ⟨by norm_num [MIN_TRADE_AMOUNT_USDT], rfl, rfl, by norm_num [mkPaperState]⟩

/-- C7 (amended): for every signal, a requested amount that is nonzero and
strictly below the configured minimum is rejected with no order and an
unchanged state (an amount of exactly 0 is instead replaced by the default
and proceeds, see the counterexample), while an amount strictly above the
configured maximum is not rejected but clamped: execution is exactly the
execution of the maximum amount. -/
theorem C7_amount_validation (st : ExecutorState) (sig : TradingSignal) (a : ℚ)
    (now : Nat) (res? : Option LiveOrderResult) :
    (a ≠ 0 → a < MIN_TRADE_AMOUNT_USDT →
      execute_signal st sig (some a) now res? = (none, st)) ∧
    (MAX_TRADE_AMOUNT_USDT < a →
      execute_signal st sig (some a) now res? =
        execute_signal st sig (some MAX_TRADE_AMOUNT_USDT) now res?) := by
  constructor
  · intro ha0 hlt
    unfold execute_signal
    split
    · rfl
    · simp only [resolveAmount, if_neg ha0, if_pos hlt]
  · intro hgt
    have ha0 : a ≠ 0 := by
      intro h0
      rw [h0] at hgt
      norm_num [MAX_TRADE_AMOUNT_USDT] at hgt
    have hnlt : ¬ a < MIN_TRADE_AMOUNT_USDT := by
      intro hlt
      norm_num [MIN_TRADE_AMOUNT_USDT, MAX_TRADE_AMOUNT_USDT] at *
      linarith
    unfold execute_signal
    simp only [resolveAmount, if_neg ha0, if_neg hnlt, if_pos hgt]
    norm_num [MIN_TRADE_AMOUNT_USDT, MAX_TRADE_AMOUNT_USDT]

/-- C7 witness: amount 5 (nonzero, below the minimum) is rejected on a fresh
paper state, and amount 1500 (above the maximum) executes exactly as the
maximum 1000 would. -/
theorem C7_amount_validation_witness :
    (5 : ℚ) ≠ 0 ∧ (5 : ℚ) < MIN_TRADE_AMOUNT_USDT ∧
    execute_signal (mkPaperState 10000) ⟨SignalType.BUY, "X", 10, []⟩ (some 5) 0 none =
      (none, mkPaperState 10000) ∧
    MAX_TRADE_AMOUNT_USDT < (1500 : ℚ) ∧
    execute_signal (mkPaperState 10000) ⟨SignalType.BUY, "X", 10, []⟩ (some 1500) 0 none =
      execute_signal (mkPaperState 10000) ⟨SignalType.BUY, "X", 10, []⟩
        (some MAX_TRADE_AMOUNT_USDT) 0 none :=
  ⟨by norm_num, by norm_num [MIN_TRADE_AMOUNT_USDT],
   (C7_amount_validation (mkPaperState 10000) ⟨SignalType.BUY, "X", 10, []⟩ 5 0 none).1
     (by norm_num) (by norm_num [MIN_TRADE_AMOUNT_USDT]),
   by norm_num [MAX_TRADE_AMOUNT_USDT],
   (C7_amount_validation (mkPaperState 10000) ⟨SignalType.BUY, "X", 10, []⟩ 1500 0 none).2
     (by norm_num [MAX_TRADE_AMOUNT_USDT])⟩

/-- C8: in live mode, when the exchange adapter call fails (modelled by the
`none` adapter result, the `except` path of `_live_buy` / `_live_sell`), the
executor returns nothing and commits no partial state: the returned state is
exactly the input state, whatever the signal and amount. -/
theorem C8_live_failure_no_commit (st : ExecutorState) (sig : TradingSignal)
    (amount? : Option ℚ) (now : Nat) (h : st.paper_mode = false) :
    execute_signal st sig amount? now none = (none, st) := by
  obtain ⟨ty, s, p, r⟩ := sig
  cases ty
  case HOLD => rfl
  case BUY =>
    simp [execute_signal, execute_buy, live_buy_none, h]
  case SELL =>
    simp only [execute_signal, execute_sell]
    cases hgp : get_position st.positions s <;>
      simp [hgp, live_sell_none, h]

/-- C8 witness: a live-mode executor handed a failing adapter on a BUY signal
returns nothing and the exact input state. -/
theorem C8_live_failure_no_commit_witness :
    (initExecutor false true none).paper_mode = false ∧
    execute_signal (initExecutor false true none) ⟨SignalType.BUY, "X", 10, []⟩
        (some 100) 0 none = (none, initExecutor false true none) :=
  ⟨rfl,
   C8_live_failure_no_commit (initExecutor false true none)
     ⟨SignalType.BUY, "X", 10, []⟩ (some 100) 0 rfl⟩

end WallyBotty
